import Mathlib

/-
  Verification of the request/response lifecycle and result serializer of
  src/app/components/Calculator.tsx.

  Numeric model: JavaScript numbers are modelled as exact rationals,
  represented as unnormalized integer fractions (JSNumber) so that all
  arithmetic is plain Int/Nat arithmetic the kernel evaluates. All concrete
  values appearing in the theorems below are small integers or simple
  fractions, for which exact rational arithmetic agrees with IEEE-754
  double arithmetic after rendering with toFixed(2) / toLocaleString().
  Division by zero (harga = 0) is the one point where the models diverge
  (the model yields a zero denominator, JS yields Infinity/NaN); no theorem
  below instantiates it.
-/

namespace Adimology

/-! ## Exact number model -/

/-- A JavaScript number modelled as an exact rational num/den. Values are
kept unnormalized (no gcd reduction) so every operation is elementary
integer arithmetic; the denominator is a natural number kept positive by
all operations (it is zero only after a division by zero, which the source
never performs on the verified paths). Every rendering function below
depends only on the represented rational value. -/
structure JSNumber where
  num : ℤ
  den : ℕ
deriving DecidableEq

instance (n : ℕ) : OfNat JSNumber n := ⟨⟨n, 1⟩⟩

def JSNumber.add (a b : JSNumber) : JSNumber :=
  ⟨a.num * b.den + b.num * a.den, a.den * b.den⟩

def JSNumber.sub (a b : JSNumber) : JSNumber :=
  ⟨a.num * b.den - b.num * a.den, a.den * b.den⟩

def JSNumber.mul (a b : JSNumber) : JSNumber :=
  ⟨a.num * b.num, a.den * b.den⟩

/-- Division a / b: the divisor's numerator moves to the denominator, with
its sign transferred to the numerator so the denominator stays a natural
number. -/
def JSNumber.div (a b : JSNumber) : JSNumber :=
  if b.num < 0 then ⟨-(a.num * (b.den : ℤ)), a.den * b.num.natAbs⟩
  else ⟨a.num * (b.den : ℤ), a.den * b.num.natAbs⟩

instance : Add JSNumber := ⟨JSNumber.add⟩
instance : Sub JSNumber := ⟨JSNumber.sub⟩
instance : Mul JSNumber := ⟨JSNumber.mul⟩
instance : Div JSNumber := ⟨JSNumber.div⟩

/-- True when the represented value is negative (the denominator is
positive in every well-formed value). -/
def JSNumber.isNegative (q : JSNumber) : Bool := q.num < 0

/-- floor (|q| * k + 1/2): the magnitude of q scaled by k and rounded to
the nearest integer, ties away from zero. This is the rounding step shared
by the models of toFixed and toLocaleString. -/
def JSNumber.scaledRound (q : JSNumber) (k : ℕ) : ℕ :=
  (q.num.natAbs * k * 2 + q.den) / (2 * q.den)

/-! ## String/number rendering helpers (model of the JS built-ins used) -/

/-- Two-digit zero padding, used for the fractional part of toFixed(2). -/
def pad2 (n : ℕ) : String :=
  if n < 10 then "0" ++ toString n else toString n

/-- Three-digit zero padding, used for the fractional part of toLocaleString. -/
def pad3 (n : ℕ) : String :=
  if n < 10 then "00" ++ toString n
  else if n < 100 then "0" ++ toString n
  else toString n

/-- Ten-digit zero padding, used for the fractional part of raw interpolation. -/
def pad10 (n : ℕ) : String :=
  let s := toString n
  String.mk (List.replicate (10 - s.length) '0') ++ s

/-- Remove trailing zero characters (used to trim fractional digit strings). -/
def dropTrailingZeros (s : String) : String :=
  String.mk ((s.toList.reverse.dropWhile (fun c => c = '0')).reverse)

/-- Insert a comma after every group of three characters of a reversed digit
list. The first argument is fuel bounding the recursion depth. -/
def groupChunks : ℕ → List Char → List Char
  | _, [] => []
  | 0, cs => cs
  | n + 1, cs =>
    if cs.length ≤ 3 then cs
    else cs.take 3 ++ ',' :: groupChunks n (cs.drop 3)

/-- Decimal rendering of a natural number with thousands separators,
e.g. 1234567 becomes "1,234,567". -/
def groupNat (n : ℕ) : String :=
  let ds := (toString n).toList.reverse
  String.mk (groupChunks ds.length ds).reverse

/-- Model of JavaScript Number.prototype.toLocaleString() in a locale with
comma thousands separators (en-US style, the behavior the spec describes):
the value is rounded to at most three fractional digits (half away from
zero), the integer part is digit-grouped, trailing fractional zeros are
dropped. Exact for the integer values the verified claims use. -/
def jsToLocaleString (q : JSNumber) : String :=
  let sign := if q.isNegative then "-" else ""
  let m3 : ℕ := q.scaledRound 1000
  let ip := m3 / 1000
  let fracStr := dropTrailingZeros (pad3 (m3 % 1000))
  sign ++ groupNat ip ++ (if fracStr = "" then "" else "." ++ fracStr)

/-- Model of JavaScript Number.prototype.toFixed(2): round to the nearest
hundredth, ties away from zero on the magnitude (the sign is extracted
first, as in the ECMAScript ToFixed algorithm), rendered with exactly two
fractional digits. -/
def toFixed2 (q : JSNumber) : String :=
  let sign := if q.isNegative then "-" else ""
  let m : ℕ := q.scaledRound 100
  sign ++ toString (m / 100) ++ "." ++ pad2 (m % 100)

/-- Model of raw JavaScript template interpolation of a number
(no grouping). Exact for integers, the only values interpolated raw in the
verified claims; non-integers are rendered with up to ten fractional
digits (truncated), an approximation of the shortest-round-trip float
rendering that is irrelevant to the claims below. -/
def jsNumToString (q : JSNumber) : String :=
  let sign := if q.isNegative then "-" else ""
  let ip : ℕ := q.num.natAbs / q.den
  let r : ℕ := q.num.natAbs % q.den
  if r = 0 then sign ++ toString ip
  else sign ++ toString ip ++ "." ++
    dropTrailingZeros (pad10 (r * 10000000000 / q.den))

/-! ## Data model

The TypeScript types live in lib/types.ts, which is outside src/; the field
shapes below are modelled from Calculator.tsx's own usage together with the
spec: fields that Calculator.tsx passes to formatNumber (which accepts
number | null | undefined) are Option JSNumber, while fields used in arithmetic
or interpolated raw (harga, totalBid, totalOffer, targetRealistis1,
targetMax) are plain JSNumber, as TypeScript arithmetic demands. -/

structure StockInput where
  emiten : String
  fromDate : String
  toDate : String
deriving DecidableEq

structure StockbitData where
  bandar : String
  barangBandar : Option JSNumber
  rataRataBandar : Option JSNumber
deriving DecidableEq

structure MarketData where
  harga : JSNumber
  offerTeratas : Option JSNumber
  bidTerbawah : Option JSNumber
  fraksi : Option JSNumber
  totalBid : JSNumber
  totalOffer : JSNumber
deriving DecidableEq

structure CalculatedData where
  totalPapan : Option JSNumber
  rataRataBidOfer : Option JSNumber
  a : Option JSNumber
  p : Option JSNumber
  targetRealistis1 : JSNumber
  targetMax : JSNumber
deriving DecidableEq

structure StockAnalysisResult where
  input : StockInput
  stockbitData : StockbitData
  marketData : MarketData
  calculated : CalculatedData
deriving DecidableEq

/-! ## Result serializer (formatResultForCopy and its inner helpers) -/

/-- Embeds the inner helper of formatResultForCopy:
`const formatNumber = (num) => num?.toLocaleString() ?? '-'`. -/
def formatNumber : Option JSNumber → String
  | some n => jsToLocaleString n
  | none => "-"

/-- Embeds the inner helper of formatResultForCopy:
`const calculateGain = (target) => (((target - marketData.harga) / marketData.harga) * 100).toFixed(2)`. -/
def calculateGain (marketData : MarketData) (target : JSNumber) : String :=
  toFixed2 (((target - marketData.harga) / marketData.harga) * 100)

/-- The `lines` array of formatResultForCopy, entry by entry in source
order (indices 0 through 24). -/
def formatLines (result : StockAnalysisResult) : List String :=
  [ "ANALISIS SAHAM: " ++ result.input.emiten.toUpper,
    "Periode: " ++ result.input.fromDate ++ " s/d " ++ result.input.toDate,
    "",
    "TOP BROKER",
    "Broker: " ++ result.stockbitData.bandar,
    "Barang Bandar: " ++ formatNumber result.stockbitData.barangBandar ++ " lot",
    "Rata-rata Harga: Rp " ++ formatNumber result.stockbitData.rataRataBandar,
    "",
    "MARKET DATA",
    "Harga: Rp " ++ formatNumber (some result.marketData.harga),
    "Offer Max: Rp " ++ formatNumber result.marketData.offerTeratas,
    "Bid Min: Rp " ++ formatNumber result.marketData.bidTerbawah,
    "Fraksi: " ++ formatNumber result.marketData.fraksi,
    "Total Bid: " ++ formatNumber (some (result.marketData.totalBid / 100)),
    "Total Offer: " ++ formatNumber (some (result.marketData.totalOffer / 100)),
    "",
    "CALCULATIONS",
    "Total Papan: " ++ formatNumber result.calculated.totalPapan,
    "Rata² Bid/Offer: " ++ formatNumber result.calculated.rataRataBidOfer,
    "a (5% dari rata² bandar): " ++ formatNumber result.calculated.a,
    "p (Barang/Rata² Bid Offer): " ++ formatNumber result.calculated.p,
    "",
    "TARGET PRICES",
    "Target Min: " ++ jsNumToString result.calculated.targetRealistis1 ++
      " (+" ++ calculateGain result.marketData result.calculated.targetRealistis1 ++ "%)",
    "Target Max: " ++ jsNumToString result.calculated.targetMax ++
      " (+" ++ calculateGain result.marketData result.calculated.targetMax ++ "%)" ]

/-- Embeds formatResultForCopy: the lines joined with newlines. -/
def formatResultForCopy (result : StockAnalysisResult) : String :=
  String.intercalate "\n" (formatLines result)

/-! ## Request orchestrator state machine -/

/-- The component state relevant to the claims: the four useState hooks
loading / result / error / copied of Calculator. -/
structure CalcState where
  loading : Bool
  result : Option StockAnalysisResult
  error : Option String
  copied : Bool
deriving DecidableEq

/-- A value thrown during fetch / response.json(): either a JS Error object
(carrying a message) or any non-Error value. -/
inductive JSException where
  | errorObj (msg : String)
  | nonErrorValue
deriving DecidableEq

/-- The parsed JSON response body {success, data, error}; success is
modelled as Option Bool (true / false / absent), which covers every shape
the claims quantify over; data and error may each be absent. -/
structure ResponsePayload where
  success : Option Bool
  data : Option StockAnalysisResult
  error : Option String
deriving DecidableEq

/-- Outcome of the awaited fetch + response.json() pair: either a parsed
payload, or an exception thrown during fetch or JSON parsing. -/
inductive FetchOutcome where
  | payload (p : ResponsePayload)
  | exn (e : JSException)
deriving DecidableEq

/-- JS truthiness of the success field: only the boolean true is truthy
(false and absent/undefined are falsy). -/
def jsTruthy : Option Bool → Bool
  | some true => true
  | _ => false

/-- JS `a || b` on the error field: an absent or empty string falls back. -/
def jsOrElse : Option String → String → String
  | some s, fallback => if s = "" then fallback else s
  | none, fallback => fallback

/-- The catch-clause message: `err instanceof Error ? err.message : 'An error occurred'`. -/
def errMessage : JSException → String
  | .errorObj m => m
  | .nonErrorValue => "An error occurred"

/-- The try-block of handleSubmit after the awaits resolve: an exception
propagates; a payload with a falsy success flag raises
`new Error(json.error || 'Failed to analyze stock')`; otherwise the data
field is returned for storage. -/
def tryFetchBody : FetchOutcome → Except JSException (Option StockAnalysisResult)
  | .exn e => .error e
  | .payload p =>
    if jsTruthy p.success then .ok p.data
    else .error (.errorObj (jsOrElse p.error "Failed to analyze stock"))

/-- The synchronous prefix of handleSubmit, executed before the network
call suspends: setLoading(true); setError(null); setResult(null). -/
def beginStep (s : CalcState) : CalcState :=
  { s with loading := true, error := none, result := none }

/-- The continuation of handleSubmit once the fetch outcome is known:
store the data on success, store the catch-clause message on any thrown
value, and in all cases clear the loading flag last (the finally block). -/
def resolveStep (o : FetchOutcome) (s : CalcState) : CalcState :=
  let s1 :=
    match tryFetchBody o with
    | .ok d => { s with result := d }
    | .error e => { s with error := some (errMessage e) }
  { s1 with loading := false }

/-- Embeds handleSubmit as a whole: the synchronous prefix followed by the
resolution of the fetch outcome. -/
def handleSubmit (o : FetchOutcome) (s : CalcState) : CalcState :=
  resolveStep o (beginStep s)

/-- Embeds the useEffect on selectedStock. The `cur = prev` guard models
React's dependency comparison (the effect body only runs when the
dependency changed); the body is `if (selectedStock) { setResult(null);
setError(null); handleSubmit({emiten, fromDate: defaultDate, toDate:
defaultDate}) }`, where `if (selectedStock)` is a JS truthiness test, so
an empty string is skipped exactly like null. getDefaultDate lives in
lib/utils outside src/ and is modelled as the opaque defaultDate argument
computed once per call. Returns the new state paired with the StockInput
the effect submitted, if any. -/
def effectOnSelectedStock (prev cur : Option String) (defaultDate : String)
    (o : FetchOutcome) (s : CalcState) : CalcState × Option StockInput :=
  if cur = prev then (s, none)
  else
    match cur with
    | none => (s, none)
    | some stk =>
      if stk = "" then (s, none)
      else (handleSubmit o { s with result := none, error := none },
            some ⟨stk, defaultDate, defaultDate⟩)

/-- Outcome of the awaited navigator.clipboard.writeText call. -/
inductive ClipboardOutcome where
  | ok
  | fail (e : JSException)
deriving DecidableEq

/-- Observable side effects of one handleCopy call: the text passed to the
clipboard write, if one was attempted, and whether the catch clause logged
an error to the console. -/
structure CopyEffects where
  attempted : Option String
  loggedError : Bool
deriving DecidableEq

/-- Embeds handleCopy: an early return when no result is stored; otherwise
the serialized text is written to the clipboard, setCopied(true) runs only
when the write succeeded, and a write failure is only logged (the
2-second setTimeout reverting copied is cosmetic and outside the claims). -/
def handleCopy (clip : ClipboardOutcome) (s : CalcState) : CalcState × CopyEffects :=
  match s.result with
  | none => (s, ⟨none, false⟩)
  | some r =>
    match clip with
    | .ok => ({ s with copied := true }, ⟨some (formatResultForCopy r), false⟩)
    | .fail _ => (s, ⟨some (formatResultForCopy r), true⟩)

/-! ## Concrete sample values used by witnesses and counterexamples -/

def sampleInput : StockInput := ⟨"BBCA", "2024-01-01", "2024-01-31"⟩

/-- A fully populated result: market price 9000, targets 9500 and 8500. -/
def sampleFull : StockAnalysisResult :=
  ⟨sampleInput,
   ⟨"MG", some 1000000, some 8800⟩,
   ⟨9000, some 9200, some 8800, some 25, 500000, 400000⟩,
   ⟨some 123456, some 789, some 440, some 2192, 9500, 8500⟩⟩

/-- A result with every nullable field absent: market price 9000,
targets 12500 and 15000. -/
def sampleSparse : StockAnalysisResult :=
  ⟨sampleInput,
   ⟨"YP", none, none⟩,
   ⟨9000, none, none, none, 500000, 400000⟩,
   ⟨none, none, none, none, 12500, 15000⟩⟩

/-- The initial component state (all four useState initial values). -/
def initState : CalcState := ⟨false, none, none, false⟩

/-- A state holding a stale result and a stale error. -/
def staleState : CalcState := ⟨false, some sampleFull, some "old error", false⟩

/-! ## Claims -/

/-- Claim C1: for every response payload with success equal to true,
handleSubmit ends in the Succeeded state (loading false, error cleared)
with the stored result exactly equal to the payload's data field, stored
wholesale with no field mutated. -/
theorem handleSubmit_success (s : CalcState) (d : Option StockAnalysisResult)
    (e : Option String) :
    handleSubmit (.payload ⟨some true, d, e⟩) s = ⟨false, d, none, s.copied⟩ := rfl

/-- Claim C2: for every payload whose success flag is false or absent,
handleSubmit ends in the Failed state (loading false, result cleared) with
the error message equal to the payload's error field when that field is
present and non-empty, and equal to the fixed fallback
"Failed to analyze stock" otherwise. -/
theorem handleSubmit_reported_failure (s : CalcState) (succ : Option Bool)
    (d : Option StockAnalysisResult) (m : String)
    (hsucc : succ = some false ∨ succ = none) :
    (m ≠ "" →
      handleSubmit (.payload ⟨succ, d, some m⟩) s = ⟨false, none, some m, s.copied⟩) ∧
    handleSubmit (.payload ⟨succ, d, some ""⟩) s =
      ⟨false, none, some "Failed to analyze stock", s.copied⟩ ∧
    handleSubmit (.payload ⟨succ, d, none⟩) s =
      ⟨false, none, some "Failed to analyze stock", s.copied⟩ := by
  rcases hsucc with h | h <;> subst h <;>
    refine ⟨fun hm => ?_, rfl, rfl⟩ <;>
    simp [handleSubmit, resolveStep, beginStep, tryFetchBody, jsTruthy, jsOrElse,
      errMessage, hm]

/-- Witness for C2 at a concrete failing payload with a non-empty error. -/
theorem handleSubmit_reported_failure_witness :
    handleSubmit (.payload ⟨some false, none, some "boom"⟩) initState =
      ⟨false, none, some "boom", false⟩ :=
  (handleSubmit_reported_failure initState (some false) none "boom" (Or.inl rfl)).1
    (by decide)

/-- Claim C3: every execution of handleSubmit, whether it ends in success,
a reported failure, or a thrown exception during fetch or parsing, leaves
the loading flag false after the terminal transition (the finally block
clears it on every exit path). -/
theorem handleSubmit_clears_loading (o : FetchOutcome) (s : CalcState) :
    (handleSubmit o s).loading = false := rfl

/-- Counterexample to Claim C4 as stated: the target-price value 12500 is
present yet rendered as the raw digit string "12500", not as its
locale-grouped rendering "12,500", because the target lines bypass
formatNumber. -/
theorem target_line_not_grouped_cex :
    (formatLines sampleSparse)[23]? = some "Target Min: 12500 (+38.89%)" ∧
    jsToLocaleString 12500 = "12,500" ∧
    (formatLines sampleSparse)[23]? ≠
      some ("Target Min: " ++ jsToLocaleString 12500 ++ " (+38.89%)") := by
  refine ⟨by decide, by decide, by decide⟩

/-- Claim C4 (amended): every numeric field rendered through formatNumber
renders as the placeholder "-" when null and with locale-grouped thousands
separators when present — in particular a null barangBandar yields the
line "Barang Bandar: - lot" — while the two target prices are interpolated
as raw ungrouped digit strings. Covers all nine nullable fields, the three
always-present values fed to formatNumber (harga, totalBid / 100,
totalOffer / 100), and both target lines. -/
theorem serializer_placeholder_grouping (r : StockAnalysisResult) :
    (r.stockbitData.barangBandar = none →
      (formatLines r)[5]? = some "Barang Bandar: - lot") ∧
    (∀ q, r.stockbitData.barangBandar = some q →
      (formatLines r)[5]? = some ("Barang Bandar: " ++ jsToLocaleString q ++ " lot")) ∧
    (r.stockbitData.rataRataBandar = none →
      (formatLines r)[6]? = some "Rata-rata Harga: Rp -") ∧
    (∀ q, r.stockbitData.rataRataBandar = some q →
      (formatLines r)[6]? = some ("Rata-rata Harga: Rp " ++ jsToLocaleString q)) ∧
    (r.marketData.offerTeratas = none →
      (formatLines r)[10]? = some "Offer Max: Rp -") ∧
    (∀ q, r.marketData.offerTeratas = some q →
      (formatLines r)[10]? = some ("Offer Max: Rp " ++ jsToLocaleString q)) ∧
    (r.marketData.bidTerbawah = none →
      (formatLines r)[11]? = some "Bid Min: Rp -") ∧
    (∀ q, r.marketData.bidTerbawah = some q →
      (formatLines r)[11]? = some ("Bid Min: Rp " ++ jsToLocaleString q)) ∧
    (r.marketData.fraksi = none →
      (formatLines r)[12]? = some "Fraksi: -") ∧
    (∀ q, r.marketData.fraksi = some q →
      (formatLines r)[12]? = some ("Fraksi: " ++ jsToLocaleString q)) ∧
    (r.calculated.totalPapan = none →
      (formatLines r)[17]? = some "Total Papan: -") ∧
    (∀ q, r.calculated.totalPapan = some q →
      (formatLines r)[17]? = some ("Total Papan: " ++ jsToLocaleString q)) ∧
    (r.calculated.rataRataBidOfer = none →
      (formatLines r)[18]? = some "Rata² Bid/Offer: -") ∧
    (∀ q, r.calculated.rataRataBidOfer = some q →
      (formatLines r)[18]? = some ("Rata² Bid/Offer: " ++ jsToLocaleString q)) ∧
    (r.calculated.a = none →
      (formatLines r)[19]? = some "a (5% dari rata² bandar): -") ∧
    (∀ q, r.calculated.a = some q →
      (formatLines r)[19]? = some ("a (5% dari rata² bandar): " ++ jsToLocaleString q)) ∧
    (r.calculated.p = none →
      (formatLines r)[20]? = some "p (Barang/Rata² Bid Offer): -") ∧
    (∀ q, r.calculated.p = some q →
      (formatLines r)[20]? = some ("p (Barang/Rata² Bid Offer): " ++ jsToLocaleString q)) ∧
    (formatLines r)[9]? = some ("Harga: Rp " ++ jsToLocaleString r.marketData.harga) ∧
    (formatLines r)[13]? =
      some ("Total Bid: " ++ jsToLocaleString (r.marketData.totalBid / 100)) ∧
    (formatLines r)[14]? =
      some ("Total Offer: " ++ jsToLocaleString (r.marketData.totalOffer / 100)) ∧
    (formatLines r)[23]? =
      some ("Target Min: " ++ jsNumToString r.calculated.targetRealistis1 ++
        " (+" ++ calculateGain r.marketData r.calculated.targetRealistis1 ++ "%)") ∧
    (formatLines r)[24]? =
      some ("Target Max: " ++ jsNumToString r.calculated.targetMax ++
        " (+" ++ calculateGain r.marketData r.calculated.targetMax ++ "%)") := by
  refine ⟨fun h => ?_, fun q h => ?_, fun h => ?_, fun q h => ?_, fun h => ?_,
    fun q h => ?_, fun h => ?_, fun q h => ?_, fun h => ?_, fun q h => ?_,
    fun h => ?_, fun q h => ?_, fun h => ?_, fun q h => ?_, fun h => ?_,
    fun q h => ?_, fun h => ?_, fun q h => ?_, rfl, rfl, rfl, rfl, rfl⟩
  · calc (formatLines r)[5]?
        = some ("Barang Bandar: " ++ formatNumber r.stockbitData.barangBandar ++ " lot") := rfl
      _ = some "Barang Bandar: - lot" := by rw [h]; rfl
  · calc (formatLines r)[5]?
        = some ("Barang Bandar: " ++ formatNumber r.stockbitData.barangBandar ++ " lot") := rfl
      _ = some ("Barang Bandar: " ++ jsToLocaleString q ++ " lot") := by rw [h]; rfl
  · calc (formatLines r)[6]?
        = some ("Rata-rata Harga: Rp " ++ formatNumber r.stockbitData.rataRataBandar) := rfl
      _ = some "Rata-rata Harga: Rp -" := by rw [h]; rfl
  · calc (formatLines r)[6]?
        = some ("Rata-rata Harga: Rp " ++ formatNumber r.stockbitData.rataRataBandar) := rfl
      _ = some ("Rata-rata Harga: Rp " ++ jsToLocaleString q) := by rw [h]; rfl
  · calc (formatLines r)[10]?
        = some ("Offer Max: Rp " ++ formatNumber r.marketData.offerTeratas) := rfl
      _ = some "Offer Max: Rp -" := by rw [h]; rfl
  · calc (formatLines r)[10]?
        = some ("Offer Max: Rp " ++ formatNumber r.marketData.offerTeratas) := rfl
      _ = some ("Offer Max: Rp " ++ jsToLocaleString q) := by rw [h]; rfl
  · calc (formatLines r)[11]?
        = some ("Bid Min: Rp " ++ formatNumber r.marketData.bidTerbawah) := rfl
      _ = some "Bid Min: Rp -" := by rw [h]; rfl
  · calc (formatLines r)[11]?
        = some ("Bid Min: Rp " ++ formatNumber r.marketData.bidTerbawah) := rfl
      _ = some ("Bid Min: Rp " ++ jsToLocaleString q) := by rw [h]; rfl
  · calc (formatLines r)[12]?
        = some ("Fraksi: " ++ formatNumber r.marketData.fraksi) := rfl
      _ = some "Fraksi: -" := by rw [h]; rfl
  · calc (formatLines r)[12]?
        = some ("Fraksi: " ++ formatNumber r.marketData.fraksi) := rfl
      _ = some ("Fraksi: " ++ jsToLocaleString q) := by rw [h]; rfl
  · calc (formatLines r)[17]?
        = some ("Total Papan: " ++ formatNumber r.calculated.totalPapan) := rfl
      _ = some "Total Papan: -" := by rw [h]; rfl
  · calc (formatLines r)[17]?
        = some ("Total Papan: " ++ formatNumber r.calculated.totalPapan) := rfl
      _ = some ("Total Papan: " ++ jsToLocaleString q) := by rw [h]; rfl
  · calc (formatLines r)[18]?
        = some ("Rata² Bid/Offer: " ++ formatNumber r.calculated.rataRataBidOfer) := rfl
      _ = some "Rata² Bid/Offer: -" := by rw [h]; rfl
  · calc (formatLines r)[18]?
        = some ("Rata² Bid/Offer: " ++ formatNumber r.calculated.rataRataBidOfer) := rfl
      _ = some ("Rata² Bid/Offer: " ++ jsToLocaleString q) := by rw [h]; rfl
  · calc (formatLines r)[19]?
        = some ("a (5% dari rata² bandar): " ++ formatNumber r.calculated.a) := rfl
      _ = some "a (5% dari rata² bandar): -" := by rw [h]; rfl
  · calc (formatLines r)[19]?
        = some ("a (5% dari rata² bandar): " ++ formatNumber r.calculated.a) := rfl
      _ = some ("a (5% dari rata² bandar): " ++ jsToLocaleString q) := by rw [h]; rfl
  · calc (formatLines r)[20]?
        = some ("p (Barang/Rata² Bid Offer): " ++ formatNumber r.calculated.p) := rfl
      _ = some "p (Barang/Rata² Bid Offer): -" := by rw [h]; rfl
  · calc (formatLines r)[20]?
        = some ("p (Barang/Rata² Bid Offer): " ++ formatNumber r.calculated.p) := rfl
      _ = some ("p (Barang/Rata² Bid Offer): " ++ jsToLocaleString q) := by rw [h]; rfl

/-- Witness for the amended C4: every null case evaluated on a result with
all nullable fields absent, every present case evaluated on a fully
populated result, together with the always-present grouped values. -/
theorem serializer_placeholder_grouping_witness :
    (formatLines sampleSparse)[5]? = some "Barang Bandar: - lot" ∧
    (formatLines sampleSparse)[6]? = some "Rata-rata Harga: Rp -" ∧
    (formatLines sampleSparse)[10]? = some "Offer Max: Rp -" ∧
    (formatLines sampleSparse)[11]? = some "Bid Min: Rp -" ∧
    (formatLines sampleSparse)[12]? = some "Fraksi: -" ∧
    (formatLines sampleSparse)[17]? = some "Total Papan: -" ∧
    (formatLines sampleSparse)[18]? = some "Rata² Bid/Offer: -" ∧
    (formatLines sampleSparse)[19]? = some "a (5% dari rata² bandar): -" ∧
    (formatLines sampleSparse)[20]? = some "p (Barang/Rata² Bid Offer): -" ∧
    (formatLines sampleFull)[5]? = some "Barang Bandar: 1,000,000 lot" ∧
    (formatLines sampleFull)[6]? = some "Rata-rata Harga: Rp 8,800" ∧
    (formatLines sampleFull)[10]? = some "Offer Max: Rp 9,200" ∧
    (formatLines sampleFull)[11]? = some "Bid Min: Rp 8,800" ∧
    (formatLines sampleFull)[12]? = some "Fraksi: 25" ∧
    (formatLines sampleFull)[17]? = some "Total Papan: 123,456" ∧
    (formatLines sampleFull)[18]? = some "Rata² Bid/Offer: 789" ∧
    (formatLines sampleFull)[19]? = some "a (5% dari rata² bandar): 440" ∧
    (formatLines sampleFull)[20]? = some "p (Barang/Rata² Bid Offer): 2,192" ∧
    (formatLines sampleFull)[9]? = some "Harga: Rp 9,000" ∧
    (formatLines sampleFull)[13]? = some "Total Bid: 5,000" ∧
    (formatLines sampleFull)[14]? = some "Total Offer: 4,000" := by
  obtain ⟨s1, _, s2, _, s3, _, s4, _, s5, _, s6, _, s7, _, s8, _, s9, _, _, _, _, _, _⟩ :=
    serializer_placeholder_grouping sampleSparse
  obtain ⟨_, f1, _, f2, _, f3, _, f4, _, f5, _, f6, _, f7, _, f8, _, f9, g9, g13, g14, _, _⟩ :=
    serializer_placeholder_grouping sampleFull
  exact ⟨s1 rfl, s2 rfl, s3 rfl, s4 rfl, s5 rfl, s6 rfl, s7 rfl, s8 rfl, s9 rfl,
    (f1 1000000 rfl).trans (by decide), (f2 8800 rfl).trans (by decide),
    (f3 9200 rfl).trans (by decide), (f4 8800 rfl).trans (by decide),
    (f5 25 rfl).trans (by decide), (f6 123456 rfl).trans (by decide),
    (f7 789 rfl).trans (by decide), (f8 440 rfl).trans (by decide),
    (f9 2192 rfl).trans (by decide), g9.trans (by decide),
    g13.trans (by decide), g14.trans (by decide)⟩

/-- Claim C5: each target line renders the gain as
((target - harga) / harga) * 100 with exactly two decimal digits and an
unconditional "+" prefix, so a below-price target renders as "+-X.XX%";
with harga 9000, target 9500 renders "+5.56%" and target 8500 renders
"+-5.56%". -/
theorem gain_formula_two_decimals_always_plus :
    (∀ r : StockAnalysisResult,
      (formatLines r)[23]? =
        some ("Target Min: " ++ jsNumToString r.calculated.targetRealistis1 ++
          " (+" ++ toFixed2 (((r.calculated.targetRealistis1 - r.marketData.harga) /
            r.marketData.harga) * 100) ++ "%)") ∧
      (formatLines r)[24]? =
        some ("Target Max: " ++ jsNumToString r.calculated.targetMax ++
          " (+" ++ toFixed2 (((r.calculated.targetMax - r.marketData.harga) /
            r.marketData.harga) * 100) ++ "%)")) ∧
    (formatLines sampleFull)[23]? = some "Target Min: 9500 (+5.56%)" ∧
    (formatLines sampleFull)[24]? = some "Target Max: 8500 (+-5.56%)" :=
  ⟨fun _ => ⟨rfl, rfl⟩, by decide, by decide⟩

/-- Claim C6: every exception thrown during fetch or parsing ends in the
Failed state with the exception's message when the thrown value is an
Error object, and the generic fallback "An error occurred" otherwise. -/
theorem handleSubmit_exception_message (s : CalcState) (m : String) :
    handleSubmit (.exn (.errorObj m)) s = ⟨false, none, some m, s.copied⟩ ∧
    handleSubmit (.exn .nonErrorValue) s =
      ⟨false, none, some "An error occurred", s.copied⟩ :=
  ⟨rfl, rfl⟩

/-- Claim C7: every call to submit clears the previous result and error
and sets the loading flag in its synchronous prefix, before the request's
outcome is consumed: handleSubmit factors as resolveStep after beginStep,
and beginStep's output is independent of any outcome. -/
theorem submit_clears_before_outcome (s : CalcState) (o : FetchOutcome) :
    beginStep s = ⟨true, none, none, s.copied⟩ ∧
    handleSubmit o s = resolveStep o (beginStep s) :=
  ⟨rfl, rfl⟩

/-- Counterexample to Claim C8 as stated: the empty-string ticker is
non-null and distinct from the previous value "BBCA", yet the effect
triggers nothing and leaves the stale result in place, because the source
guard `if (selectedStock)` tests JS truthiness, not non-nullness. -/
theorem effect_empty_ticker_cex :
    (some "" : Option String) ≠ none ∧
    (some "" : Option String) ≠ some "BBCA" ∧
    staleState.result ≠ none ∧
    effectOnSelectedStock (some "BBCA") (some "") "2024-06-01"
      (.exn .nonErrorValue) staleState = (staleState, none) :=
  ⟨by decide, by decide, fun h => Option.noConfusion h, rfl⟩

/-- Claim C8 (amended): a non-null, non-empty ticker distinct from the
previous one clears the existing result and error and calls submit with
that ticker and one default date used for both fromDate and toDate; a
null, empty, or repeated-identical ticker triggers nothing. -/
theorem effect_selected_stock (prev : Option String) (stk defaultDate : String)
    (o : FetchOutcome) (s : CalcState)
    (hne : (some stk : Option String) ≠ prev) (hstk : stk ≠ "") :
    effectOnSelectedStock prev (some stk) defaultDate o s =
      (handleSubmit o { s with result := none, error := none },
       some ⟨stk, defaultDate, defaultDate⟩) ∧
    effectOnSelectedStock prev none defaultDate o s = (s, none) ∧
    effectOnSelectedStock prev prev defaultDate o s = (s, none) := by
  refine ⟨?_, ?_, ?_⟩
  · simp [effectOnSelectedStock, hne, hstk]
  · by_cases h : (none : Option String) = prev <;> simp [effectOnSelectedStock, h]
  · simp [effectOnSelectedStock]

/-- Witness for the amended C8 at a concrete new ticker over a stale
state. -/
theorem effect_selected_stock_witness :
    effectOnSelectedStock (some "BBCA") (some "TLKM") "2024-06-01"
      (.exn .nonErrorValue) staleState =
      (handleSubmit (.exn .nonErrorValue) { staleState with result := none, error := none },
       some ⟨"TLKM", "2024-06-01", "2024-06-01"⟩) :=
  (effect_selected_stock (some "BBCA") "TLKM" "2024-06-01" (.exn .nonErrorValue)
    staleState (by decide) (by decide)).1

/-- Claim C9: the copy action only attempts a clipboard write when a
current result is present, and every clipboard-write failure is swallowed
(logged only) leaving the whole component state — in particular loading,
result and error — unchanged. -/
theorem handleCopy_gated_and_swallows (s : CalcState) (clip : ClipboardOutcome) :
    (s.result = none → handleCopy clip s = (s, ⟨none, false⟩)) ∧
    (∀ e, clip = .fail e → (handleCopy clip s).1 = s) ∧
    (∀ e r, clip = .fail e → s.result = some r →
      handleCopy clip s = (s, ⟨some (formatResultForCopy r), true⟩)) := by
  refine ⟨fun h => ?_, fun e he => ?_, fun e r he hr => ?_⟩
  · simp [handleCopy, h]
  · cases hr : s.result <;> subst he <;> simp [handleCopy, hr]
  · subst he; simp [handleCopy, hr]

/-- Witness for C9: a failing clipboard write over a state holding a
result logs the failure and leaves the state unchanged. -/
theorem handleCopy_gated_and_swallows_witness :
    handleCopy (.fail .nonErrorValue) staleState =
      (staleState, ⟨some (formatResultForCopy sampleFull), true⟩) :=
  (handleCopy_gated_and_swallows staleState (.fail .nonErrorValue)).2.2
    .nonErrorValue sampleFull rfl rfl

/-- Claim C10: with two overlapping submissions no guard discards either
outcome: the begin prefixes commute (so issue order is irrelevant), the
first-resolving outcome is applied unconditionally, and the
last-resolving outcome determines the final displayed result or error,
with loading false at the end. -/
theorem overlap_last_resolve_wins (s : CalcState) (o1 o2 : FetchOutcome) :
    beginStep (beginStep s) = beginStep s ∧
    (∀ d, tryFetchBody o1 = .ok d →
      (resolveStep o1 (beginStep (beginStep s))).result = d) ∧
    (resolveStep o2 (resolveStep o1 (beginStep (beginStep s)))).loading = false ∧
    (∀ d, tryFetchBody o2 = .ok d →
      (resolveStep o2 (resolveStep o1 (beginStep (beginStep s)))).result = d) ∧
    (∀ e, tryFetchBody o2 = .error e →
      (resolveStep o2 (resolveStep o1 (beginStep (beginStep s)))).error =
        some (errMessage e)) := by
  refine ⟨rfl, fun d h => ?_, rfl, fun d h => ?_, fun e h => ?_⟩ <;>
    simp [resolveStep, h]

/-- Witness for C10: two successful overlapping responses; the one that
resolves last (here the first-issued request) provides the displayed
result. -/
theorem overlap_last_resolve_wins_witness :
    (resolveStep (.payload ⟨some true, some sampleSparse, none⟩)
      (resolveStep (.payload ⟨some true, some sampleFull, none⟩)
        (beginStep (beginStep initState)))).result = some sampleSparse :=
  (overlap_last_resolve_wins initState (.payload ⟨some true, some sampleFull, none⟩)
    (.payload ⟨some true, some sampleSparse, none⟩)).2.2.2.1 (some sampleSparse) rfl

end Adimology
